import Mathlib

/-!
Verification of the Road-Hawk repository (trucking_log.py and auto_update.py)
against its natural-language specification.

The development is a shallow embedding of the two Python programs:

* `trucking_log.py` — an interactive CSV trip/expense logger.  Python floats
  are modelled as rationals; `float(...)` parsing of a user answer or of a CSV
  field is modelled as an `Option ℚ` (`none` = the string does not parse);
  a CSV file on disk is `Option (List row)` (`none` = the file does not
  exist); the `"%.2f"` formatting applied to every number the program writes
  is modelled by `round2` (round half to even at two decimals, as Python's
  fixed-point formatting does).
* `auto_update.py` — two independent update-watcher variants contained in the
  same source file.  Variant A (`detect_changes` / `update_code`) diffs a
  dropped `.update.py` candidate against `Road_Hawk.py` and overwrites it
  after a backup; Variant B (`apply_python_update` / `archive_file`) always
  installs `.py` drops and archives `.txt`/`.docx` drops.  File contents are
  line lists (Variant A reads lines) or plain strings (Variant B moves whole
  files); a raised `FileNotFoundError`/`shutil` error is `Except.error ()`.

User inputs to the logger are modelled after the `.strip().lower()`
normalisation the source applies at the prompt before any business logic
runs, so string fields of the input structures hold the normalised text.
-/

/-! ## trucking_log.py — constants and pay computation -/

/-- PAY_RATE_PER_MILE = 0.50 (trucking_log.py line 20). -/
def PAY_RATE_PER_MILE : ℚ := 1/2

/-- OWNER_OPERATOR_PERCENTAGE = 0.80 (trucking_log.py line 21). -/
def OWNER_OPERATOR_PERCENTAGE : ℚ := 4/5

/-- calculate_pay (trucking_log.py lines 118-130): company drivers are paid
per mile, owner-operators a percentage of revenue, anything else 0
(with a logged warning, which does not affect the returned value). -/
def calculate_pay (driver_type : String) (miles : ℚ) (revenue : ℚ) : ℚ :=
  if driver_type = "company" then miles * PAY_RATE_PER_MILE
  else if driver_type = "owner" then revenue * OWNER_OPERATOR_PERCENTAGE
  else 0

/-! ## Fixed-point formatting: the value written by Python's `f"{x:.2f}"` -/

/-- Round a rational to the nearest integer, ties to even, as IEEE/Python
fixed-point formatting does. -/
def roundHalfEven (x : ℚ) : ℤ :=
  let n := ⌊x⌋
  let f := x - (n : ℚ)
  if f < 1/2 then n
  else if 1/2 < f then n + 1
  else if n % 2 = 0 then n else n + 1

/-- The numeric value denoted by the `"%.2f"` rendering of `q`: `q` rounded
to two decimal places.  Every number `trucking_log.py` writes to a CSV goes
through this formatting. -/
def round2 (q : ℚ) : ℚ := ((roundHalfEven (100 * q) : ℤ) : ℚ) / 100

/-- The calendar day of a timestamp measured in seconds, as
`datetime.date()` truncates it (model of `start_dt.date()`). -/
def dateOf (t : ℚ) : ℤ := ⌊t / 86400⌋

/-! ## CSV fields as `export_data` classifies them -/

/-- One CSV cell as `float(row.get(key, 0) or 0)` sees it
(trucking_log.py lines 203-204, 213):
`num q` — a numeric string parsing to `q`;
`blank` — an empty string, a `None` fill-in for a short row, or an absent
column (all of which the `or 0` / `get` default turn into `0`);
`bad` — a non-empty string that does not parse (raises `ValueError`). -/
inductive CsvField where
  | num (q : ℚ)
  | blank
  | bad
deriving DecidableEq

/-- The result of `float(row.get(key, 0) or 0)` on a cell: `none` means the
`float` call raises `ValueError`. -/
def parseField : CsvField → Option ℚ
  | .num q => some q
  | .blank => some 0
  | .bad => none

/-- The two columns of a `trips.csv` row that `export_data` reads. -/
structure TripCsvRow where
  miles : CsvField
  pay : CsvField
deriving DecidableEq

/-- One iteration of the `trips.csv` loop of `export_data`
(trucking_log.py lines 201-206): `total_miles` is increased first; if the
`Pay` cell then raises, the `except ValueError: continue` fires with the
`Miles` contribution already made. -/
def tripStep (acc : ℚ × ℚ) (row : TripCsvRow) : ℚ × ℚ :=
  match parseField row.miles with
  | none => acc
  | some m =>
    match parseField row.pay with
    | none => (acc.1 + m, acc.2)
    | some p => (acc.1 + m, acc.2 + p)

/-- `(total_miles, total_pay)` accumulated over all rows of `trips.csv`. -/
def exportTripTotals (rows : List TripCsvRow) : ℚ × ℚ :=
  rows.foldl tripStep (0, 0)

/-- One iteration of the `expenses.csv` loop of `export_data`
(trucking_log.py lines 211-215). -/
def expenseStep (acc : ℚ) (amount : CsvField) : ℚ :=
  match parseField amount with
  | none => acc
  | some a => acc + a

/-- `total_expenses` accumulated over all `Amount` cells of `expenses.csv`. -/
def exportExpenseTotal (amounts : List CsvField) : ℚ :=
  amounts.foldl expenseStep 0

/-! ## Rendering of the summary amounts -/

/-- A decimal digit as a character. -/
def dchar (d : Nat) : Char := Char.ofNat (48 + d)

/-- The last two decimal digits of `n`, zero padded. -/
def p2 (n : Nat) : List Char := [dchar (n / 10 % 10), dchar (n % 10)]

/-- The last four decimal digits of `n`, zero padded. -/
def p4 (n : Nat) : List Char :=
  [dchar (n / 1000 % 10), dchar (n / 100 % 10), dchar (n / 10 % 10), dchar (n % 10)]

/-- The text produced by Python's `f"{q:.2f}"`: sign, integer part, dot,
two decimals. -/
def fmt2str (q : ℚ) : String :=
  let cents := roundHalfEven (100 * q)
  let a := cents.natAbs
  (if cents < 0 then "-" else "") ++ toString (a / 100) ++ "." ++ String.mk (p2 (a % 100))

/-- export_data (trucking_log.py lines 190-232): totals over the two CSV
files (an absent file — `os.path.exists` false — contributes nothing) and
the four rows written to `exports/summary.csv`. -/
def export_data (trips : Option (List TripCsvRow)) (expenses : Option (List CsvField)) :
    List (List String) :=
  let t := exportTripTotals (trips.getD [])
  let e := exportExpenseTotal (expenses.getD [])
  [["Metric", "Amount"],
   ["Total Miles", fmt2str t.1],
   ["Total Pay", "$" ++ fmt2str t.2],
   ["Total Expenses", "$" ++ fmt2str e]]

/-- The summary file is opened with `mode='w'` (trucking_log.py line 224):
whatever `exports/summary.csv` held before is replaced by the new rows. -/
def overwrite_summary (_previous : Option (List (List String)))
    (new_rows : List (List String)) : List (List String) :=
  new_rows

/-! ## write_to_csv and append sequences -/

/-- write_to_csv (trucking_log.py lines 234-247) acting on the contents of
one CSV file: `none` = the file does not exist (`os.path.isfile` false).
A new file gets the header first; an existing file is appended to. -/
def write_to_csv (contents : Option (List (List String)))
    (header data_row : List String) : List (List String) :=
  match contents with
  | none => [header, data_row]
  | some rows => rows ++ [data_row]

/-- A whole sequence of `write_to_csv` calls with the same header against
one file, starting from `contents`. -/
def append_rows (contents : Option (List (List String))) (header : List String)
    (rows : List (List String)) : Option (List (List String)) :=
  rows.foldl (fun st r => some (write_to_csv st header r)) contents

/-! ## log_trip and log_expense -/

/-- The answers a user gives to the `log_trip` prompts, after the
`.strip()`/`.lower()` normalisation the source applies at the prompt.
A numeric answer is `none` when `float(...)` would raise `ValueError`;
a date-time answer is `none` when `datetime.fromisoformat` would raise,
otherwise the local timestamp in seconds. -/
structure TripInputs where
  trip_id : String
  driver_name : String
  driver_type : String
  start_time : Option ℚ
  end_time : Option ℚ
  miles : Option ℚ
  revenue : Option ℚ
  add_expense : String
  expense_amount : Option ℚ
  expense_desc : String
deriving DecidableEq

/-- The answers a user gives to the `log_expense` prompts. -/
structure ExpenseInputs where
  driver_name : String
  amount : Option ℚ
  description : String
  date : Option ℤ
deriving DecidableEq

/-- One row of `trips.csv` as `log_trip` writes it (trucking_log.py
lines 94-107): the numbers carry the `"%.2f"`-rounded values stored in
the file. -/
structure TripRecord where
  tripId : String
  driverName : String
  driverType : String
  startTime : ℚ
  endTime : ℚ
  durationHours : ℚ
  miles : ℚ
  pay : ℚ
  expenseAmount : ℚ
  expenseDesc : String
deriving DecidableEq

/-- One row of `expenses.csv` as `log_expense_record` writes it
(trucking_log.py lines 132-140). -/
structure ExpenseRecord where
  date : ℤ
  driverName : String
  amount : ℚ
  description : String
deriving DecidableEq

/-- What one logger operation leaves behind: the rows appended to
`trips.csv`, the rows appended to `expenses.csv`, and whether an error
message was printed. -/
structure LogResult where
  tripRows : List TripRecord
  expenseRows : List ExpenseRecord
  errored : Bool
deriving DecidableEq

/-- `driver_name or "General"` (trucking_log.py lines 91, 149-150). -/
def fallback_name (n : String) : String := if n = "" then "General" else n

/-- The `trips.csv` data row `log_trip` assembles (lines 96-107): duration
is `(end - start).total_seconds() / 3600`, pay comes from `calculate_pay`,
and every number is written through `"%.2f"`. -/
def trip_row (inp : TripInputs) (start_dt end_dt miles revenue expense_amount : ℚ)
    (expense_desc : String) : TripRecord :=
  { tripId := inp.trip_id
    driverName := inp.driver_name
    driverType := inp.driver_type
    startTime := start_dt
    endTime := end_dt
    durationHours := round2 ((end_dt - start_dt) / 3600)
    miles := round2 miles
    pay := round2 (calculate_pay inp.driver_type miles revenue)
    expenseAmount := round2 expense_amount
    expenseDesc := expense_desc }

/-- log_trip (trucking_log.py lines 27-116).  Control flow of the source:
unparseable start/end time aborts (line 47); unparseable miles aborts
(line 62); for an owner-operator an unparseable revenue aborts (line 72),
other driver types are never asked for revenue; an unparseable expense
amount does not abort — the expense is dropped, `expense_amount` stays 0,
an error is printed, and the trip row is still written (lines 84-87 then
110); a parseable expense is appended to `expenses.csv` before the trip
row is appended to `trips.csv` (lines 91, 110). -/
def log_trip (inp : TripInputs) : LogResult :=
  match inp.start_time, inp.end_time with
  | some start_dt, some end_dt =>
    (match inp.miles with
     | none => ⟨[], [], true⟩
     | some miles =>
       match (if inp.driver_type = "owner" then inp.revenue else some 0) with
       | none => ⟨[], [], true⟩
       | some revenue =>
         if inp.add_expense = "y" then
           match inp.expense_amount with
           | none =>
             ⟨[trip_row inp start_dt end_dt miles revenue 0 ""], [], true⟩
           | some amount =>
             ⟨[trip_row inp start_dt end_dt miles revenue amount inp.expense_desc],
              [⟨dateOf start_dt, fallback_name inp.driver_name, round2 amount,
                inp.expense_desc⟩],
              false⟩
         else ⟨[trip_row inp start_dt end_dt miles revenue 0 ""], [], false⟩)
  | _, _ => ⟨[], [], true⟩

/-- log_expense (trucking_log.py lines 142-168): an unparseable amount is
caught by the function-level `except ValueError` before anything is
written; an unparseable date returns before anything is written; otherwise
one expense row is appended. -/
def log_expense (inp : ExpenseInputs) : LogResult :=
  match inp.amount with
  | none => ⟨[], [], true⟩
  | some amount =>
    match inp.date with
    | none => ⟨[], [], true⟩
    | some date =>
      ⟨[], [⟨date, fallback_name inp.driver_name, round2 amount, inp.description⟩], false⟩

/-- The `Miles`/`Pay` cells of a written trip record as `export_data`
re-reads them: the stored two-decimal renderings parse back to the stored
values. -/
def trip_csv_row (r : TripRecord) : TripCsvRow :=
  ⟨CsvField.num r.miles, CsvField.num r.pay⟩

/-! ## auto_update.py — timestamps and backup names -/

/-- The local time at which a backup is taken, as `time.strftime` reads it. -/
structure Timestamp where
  year : Nat
  month : Nat
  day : Nat
  hour : Nat
  minute : Nat
  second : Nat
deriving DecidableEq

/-- Bounds every `time.strftime` output satisfies: each two-digit field is
below 100 and the year below 10000. -/
def Timestamp.valid (t : Timestamp) : Prop :=
  t.year < 10000 ∧ t.month < 100 ∧ t.day < 100 ∧ t.hour < 100 ∧ t.minute < 100 ∧
    t.second < 100

instance (t : Timestamp) : Decidable t.valid := by
  unfold Timestamp.valid; infer_instance

/-- The text of `time.strftime("%Y%m%d-%H%M%S")` (auto_update.py lines 35,
222): four year digits, two digits for each other field, a dash between
date and time. -/
def fmtTimestamp (t : Timestamp) : String :=
  String.mk (p4 t.year ++ p2 t.month ++ p2 t.day ++ [Char.ofNat 45] ++
    p2 t.hour ++ p2 t.minute ++ p2 t.second)

/-- The numeric value of a digit character. -/
def dv (c : Char) : Nat := c.toNat - 48

/-- Reading a timestamp back out of its 15-character rendering; used to show
the rendering identifies the timestamp down to the second. -/
def decode_ts (s : String) : Option Timestamp :=
  match s.data with
  | [y1, y2, y3, y4, mo1, mo2, d1, d2, _, h1, h2, mi1, mi2, se1, se2] =>
    some ⟨dv y1 * 1000 + dv y2 * 100 + dv y3 * 10 + dv y4,
          dv mo1 * 10 + dv mo2, dv d1 * 10 + dv d2,
          dv h1 * 10 + dv h2, dv mi1 * 10 + dv mi2, dv se1 * 10 + dv se2⟩
  | _ => none

/-- Variant A backup file name, `f"Road_Hawk_{timestamp}.bak"` inside
BACKUP_FOLDER (auto_update.py lines 35-37). -/
def backupName (ts : Timestamp) : String :=
  "Road_Hawk_" ++ fmtTimestamp ts ++ ".bak"

/-- Variant B backup file name, `f"{MAIN_SCRIPT}_{timestamp}.bak"` inside
ARCHIVE_FOLDER (auto_update.py lines 222-224). -/
def backupNameB (ts : Timestamp) : String :=
  "Road_Hawk.py_" ++ fmtTimestamp ts ++ ".bak"

/-- Python's `str.endswith` on plain suffixes. -/
def endswith (s pat : String) : Bool := pat.data.isSuffixOf s.data

/-! ## auto_update.py Variant A (lines 1-149): diff-gated update -/

/-- The filesystem as Variant A touches it: the dropped update candidates
(name to content, in lines), the contents of `Road_Hawk.py` (`none` = the
file does not exist), and the accumulated backups. -/
structure StateA where
  folder : List (String × List String)
  target : Option (List String)
  backups : List (String × List String)
deriving DecidableEq

/-- backup_current_version (auto_update.py lines 31-41): copies `MAIN_FILE`
to a timestamped `.bak` unconditionally; when `Road_Hawk.py` does not
exist, `shutil.copy` raises `FileNotFoundError` (modelled `.error ()`). -/
def backup_current_version (ts : Timestamp) (s : StateA) : Except Unit StateA :=
  match s.target with
  | none => .error ()
  | some t => .ok { s with backups := s.backups ++ [(backupName ts, t)] }

/-- detect_changes (auto_update.py lines 47-65): a missing target means a
fresh install (truthy `True`); otherwise `difflib.unified_diff` of the old
lines against the new lines is truthy exactly when the line lists differ. -/
def detect_changes (target : Option (List String)) (new_code : List String) : Bool :=
  match target with
  | none => true
  | some old_code => old_code != new_code

/-- update_code (auto_update.py lines 71-99): when changes are detected,
back up then overwrite `Road_Hawk.py` with the new code; otherwise leave
everything as it is.  An exception out of the backup propagates. -/
def update_code (ts : Timestamp) (s : StateA) (new_code : List String) :
    Except Unit StateA :=
  if detect_changes s.target new_code then
    match backup_current_version ts s with
    | .error e => .error e
    | .ok s1 => .ok { s1 with target := some new_code }
  else .ok s

/-- One `.update.py` candidate being handled by the Variant A watch loop
(auto_update.py lines 119-141): read the candidate, run `update_code`, then
`os.remove` the candidate.  An exception out of `update_code` leaves the
candidate in place and escapes the loop. -/
def process_candidate (ts : Timestamp) (s : StateA) (name : String) :
    Except Unit StateA :=
  match s.folder.lookup name with
  | none => .ok s
  | some new_code =>
    match update_code ts s new_code with
    | .error e => .error e
    | .ok s1 => .ok { s1 with folder := s1.folder.filter (fun e => e.1 != name) }

/-! ## auto_update.py Variant B (lines 150-265): always-install with archive -/

/-- The filesystem as Variant B touches it: the watched inbox
(`BACKUP_FOLDER`), the contents of `Road_Hawk.py`, and the
`ARCHIVE_FOLDER` holding both `.bak` copies and archived documents. -/
structure StateB where
  inbox : List (String × String)
  target : Option String
  archive : List (String × String)
deriving DecidableEq

/-- apply_python_update (auto_update.py lines 214-240): copy the existing
`Road_Hawk.py` to a timestamped archive name when it exists (skip the copy
silently when it does not), then `shutil.move` the dropped file over
`Road_Hawk.py`. -/
def apply_python_update (ts : Timestamp) (s : StateB) (f : String × String) : StateB :=
  let s1 :=
    match s.target with
    | some t => { s with archive := s.archive ++ [(backupNameB ts, t)] }
    | none => s
  { s1 with target := some f.2, inbox := s1.inbox.filter (fun e => e.1 != f.1) }

/-- archive_file (auto_update.py lines 244-252): `shutil.move` the document
into `ARCHIVE_FOLDER` under its own name. -/
def archive_file (s : StateB) (f : String × String) : StateB :=
  { s with inbox := s.inbox.filter (fun e => e.1 != f.1),
           archive := s.archive ++ [(f.1, f.2)] }

/-- The suffix dispatch of one file in the Variant B scan loop
(auto_update.py lines 192-206): `.py` is installed, `.txt`/`.docx` is
archived for review, anything else falls through both branches untouched. -/
def scan_step (ts : Timestamp) (s : StateB) (f : String × String) : StateB :=
  if endswith f.1 ".py" then apply_python_update ts s f
  else if endswith f.1 ".txt" || endswith f.1 ".docx" then archive_file s f
  else s

/-- One full pass of the Variant B loop over the `os.listdir` snapshot of
the inbox (auto_update.py lines 188-210). -/
def scan_cycle (ts : Timestamp) (s : StateB) : StateB :=
  s.inbox.foldl (scan_step ts) s

/-! ## Reference sums used to state what the export totals equal -/

/-- Sum of the `Miles` cells that parse, each taken once, over a row list
(a non-parsing `Miles` cell contributes nothing). -/
def sumParseableMiles : List TripCsvRow → ℚ
  | [] => 0
  | r :: rs =>
    (match parseField r.miles with
     | some m => m
     | none => 0) + sumParseableMiles rs

/-- Sum of the `Pay` cells of the rows whose `Miles` and `Pay` cells both
parse (a row failing on either cell contributes nothing to the pay total). -/
def sumPayBothParseable : List TripCsvRow → ℚ
  | [] => 0
  | r :: rs =>
    (match parseField r.miles, parseField r.pay with
     | some _, some p => p
     | _, _ => 0) + sumPayBothParseable rs

/-- Sum of the `Amount` cells that parse over an expense row list. -/
def sumParseableAmounts : List CsvField → ℚ
  | [] => 0
  | a :: rest =>
    (match parseField a with
     | some q => q
     | none => 0) + sumParseableAmounts rest

/-- Modelled from the claim's words, for comparison with `exportTripTotals`:
totals in which "every row containing a non-numeric field in those columns
is excluded entirely" — a row counts towards either total only when both
its `Miles` and `Pay` cells parse. -/
def exportTripTotals_rowExclusion_spec : List TripCsvRow → ℚ × ℚ
  | [] => (0, 0)
  | r :: rs =>
    let rest := exportTripTotals_rowExclusion_spec rs
    match parseField r.miles, parseField r.pay with
    | some m, some p => (m + rest.1, p + rest.2)
    | _, _ => rest

/-! ## Concrete inputs used by the closed counterexample and witness theorems -/

/-- A `trips.csv` with one row whose `Pay` cell is non-numeric and one row
whose `Miles` cell is non-numeric. -/
def c2_rows : List TripCsvRow :=
  [⟨CsvField.num 100, CsvField.bad⟩, ⟨CsvField.bad, CsvField.num 50⟩]

/-- A fully well-formed trip entry except for a non-numeric expense amount
answered to the expense prompt. -/
def c4_input : TripInputs :=
  { trip_id := "T1", driver_name := "ann", driver_type := "company",
    start_time := some 0, end_time := some 3600, miles := some 100,
    revenue := some 0, add_expense := "y", expense_amount := none,
    expense_desc := "" }

/-- A fully well-formed trip entry with no expense, used to exhibit a
successful `log_trip` run. -/
def c8_input : TripInputs :=
  { trip_id := "T7", driver_name := "bo", driver_type := "company",
    start_time := some 0, end_time := some 7200, miles := some 100,
    revenue := some 0, add_expense := "n", expense_amount := none,
    expense_desc := "" }

/-- The trip record `log_trip c8_input` writes. -/
def c8_record : TripRecord := trip_row c8_input 0 7200 100 0 0 ""

/-- A concrete scan instant. -/
def ts0 : Timestamp := ⟨2025, 3, 4, 5, 6, 7⟩

/-- A second concrete scan instant. -/
def ts1 : Timestamp := ⟨2026, 1, 2, 3, 4, 5⟩

/-- Variant A state: a zero-byte update candidate dropped while
`Road_Hawk.py` holds one line. -/
def c3_state : StateA := ⟨[("v.update.py", [])], some ["x"], []⟩

/-- Variant A state: an update candidate dropped while `Road_Hawk.py` does
not exist. -/
def c6_state : StateA := ⟨[("v2.update.py", ["print(1)"])], none, []⟩

/-! ## Helper lemmas -/

/-- Appending to an existing file only ever adds the data rows at the end. -/
theorem append_rows_some (header : List String) :
    ∀ (rows c : List (List String)), append_rows (some c) header rows = some (c ++ rows) := by
  intro rows
  induction rows with
  | nil => intro c; simp [append_rows]
  | cons r rs ih =>
    intro c
    have h1 : append_rows (some c) header (r :: rs) =
        append_rows (some (c ++ [r])) header rs := rfl
    rw [h1, ih (c ++ [r])]
    simp

/-! ## C1 — calculate_pay -/

/-- C1: for every driver type string and non-negative miles and revenue,
`calculate_pay` returns `miles * PAY_RATE_PER_MILE` for `"company"`,
`revenue * OWNER_OPERATOR_PERCENTAGE` for `"owner"`, and `0` for any other
driver type; being a total function of its inputs it raises nothing. -/
theorem calculate_pay_cases (driver_type : String) (miles revenue : ℚ)
    (_hm : 0 ≤ miles) (_hr : 0 ≤ revenue) :
    (driver_type = "company" →
      calculate_pay driver_type miles revenue = miles * PAY_RATE_PER_MILE) ∧
    (driver_type = "owner" →
      calculate_pay driver_type miles revenue = revenue * OWNER_OPERATOR_PERCENTAGE) ∧
    (driver_type ≠ "company" → driver_type ≠ "owner" →
      calculate_pay driver_type miles revenue = 0) := by
  exact ⟨fun h => by simp [calculate_pay, h],
    fun h => by simp [calculate_pay, h],
    fun h1 h2 => by simp [calculate_pay, h1, h2]⟩

/-- C1 witness: the two concrete scenarios of the specification, a
500-mile company trip and a 1000-revenue owner-operator trip. -/
theorem calculate_pay_cases_witness :
    calculate_pay "company" 500 0 = 500 * PAY_RATE_PER_MILE ∧
    calculate_pay "owner" 500 1000 = 1000 * OWNER_OPERATOR_PERCENTAGE :=
  ⟨(calculate_pay_cases "company" 500 0 (by norm_num) (by norm_num)).1 rfl,
   (calculate_pay_cases "owner" 500 1000 (by norm_num) (by norm_num)).2.1 rfl⟩

/-! ## C7 — CSV files are append-only, header exactly once -/

/-- C7: over any append sequence through `write_to_csv`, a file that did
not exist gets exactly the header followed by the appended rows in order
(so the header appears exactly once, before the first data row), and a
file that already existed keeps all its rows, gets no header, and only
grows at the end. -/
theorem csv_append_only_header_once
    (header first : List String) (rest c : List (List String))
    (hno : header ∉ first :: rest) :
    append_rows none header (first :: rest) = some (header :: first :: rest) ∧
    (header :: first :: rest).count header = 1 ∧
    append_rows (some c) header (first :: rest) = some (c ++ (first :: rest)) := by
  refine ⟨?_, ?_, append_rows_some header (first :: rest) c⟩
  · have h1 : append_rows none header (first :: rest) =
        append_rows (some [header, first]) header rest := rfl
    rw [h1, append_rows_some]
    simp
  · rw [List.count_cons_self, List.count_eq_zero.mpr hno]

/-- C7 witness: a fresh file receiving two rows under header `["H"]`, and
an existing file `[["x"]]` receiving the same two rows. -/
theorem csv_append_only_header_once_witness :
    append_rows none ["H"] (["1"] :: [["2"]]) = some (["H"] :: ["1"] :: [["2"]]) ∧
    (["H"] :: ["1"] :: [["2"]]).count ["H"] = 1 ∧
    append_rows (some [["x"]]) ["H"] (["1"] :: [["2"]]) =
      some ([["x"]] ++ (["1"] :: [["2"]])) :=
  csv_append_only_header_once ["H"] ["1"] [["2"]] [["x"]] (by decide)

/-! ## C2 — export totals -/

/-- The trips loop of `export_data` computes, from any starting
accumulator, the sum of parseable `Miles` cells and the sum of `Pay` cells
of rows where both cells parse. -/
theorem foldl_tripStep (rows : List TripCsvRow) : ∀ acc : ℚ × ℚ,
    rows.foldl tripStep acc =
      (acc.1 + sumParseableMiles rows, acc.2 + sumPayBothParseable rows) := by
  induction rows with
  | nil => intro acc; simp [sumParseableMiles, sumPayBothParseable]
  | cons r rs ih =>
    intro acc
    rw [List.foldl_cons, ih]
    rcases r with ⟨mf, pf⟩
    cases mf <;> cases pf <;>
      simp [tripStep, parseField, sumParseableMiles, sumPayBothParseable,
        Prod.ext_iff] <;>
      (try constructor) <;> (try ring)

/-- The expenses loop of `export_data` computes the sum of parseable
`Amount` cells. -/
theorem foldl_expenseStep (amounts : List CsvField) : ∀ acc : ℚ,
    amounts.foldl expenseStep acc = acc + sumParseableAmounts amounts := by
  induction amounts with
  | nil => intro acc; simp [sumParseableAmounts]
  | cons a rest ih =>
    intro acc
    rw [List.foldl_cons, ih]
    cases a <;> (simp [expenseStep, parseField, sumParseableAmounts]; try ring)

/-- C2 (amended): Total Miles is the sum of every parseable `Miles` cell
(regardless of the row's `Pay` cell); Total Pay is the sum of the `Pay`
cells of the rows whose `Miles` and `Pay` cells both parse; Total Expenses
is the sum of every parseable `Amount` cell; no non-numeric cell aborts
the export — the loops are total. -/
theorem export_totals_parseable_sums (trips : List TripCsvRow)
    (expenses : List CsvField) :
    exportTripTotals trips = (sumParseableMiles trips, sumPayBothParseable trips) ∧
    exportExpenseTotal expenses = sumParseableAmounts expenses := by
  constructor
  · rw [exportTripTotals, foldl_tripStep]; simp
  · rw [exportExpenseTotal, foldl_expenseStep]; simp

/-- C2 counterexample: on a file with one row `Miles=100, Pay=bad` and one
row `Miles=bad, Pay=50`, the code yields totals `(100, 0)` — the first
row's miles are counted even though its pay cell is non-numeric — while
the claimed whole-row exclusion would yield `(0, 0)`. -/
theorem export_rowExclusion_counterexample :
    exportTripTotals c2_rows = (100, 0) ∧
    exportTripTotals_rowExclusion_spec c2_rows = (0, 0) ∧
    exportTripTotals c2_rows ≠ exportTripTotals_rowExclusion_spec c2_rows := by
  refine ⟨?_, ?_, ?_⟩
  · simp [exportTripTotals, c2_rows, tripStep, parseField]
  · simp [exportTripTotals_rowExclusion_spec, c2_rows, parseField]
  · simp [exportTripTotals, exportTripTotals_rowExclusion_spec, c2_rows,
      tripStep, parseField]

/-! ## C8 — round-trip of a logged trip into the summary -/

/-- C8: a trip record written by `log_trip` contributes, on re-read by the
summary path, exactly its stored Miles value and its stored Pay value,
each exactly once, to the two totals. -/
theorem trip_roundtrip_contribution (inp : TripInputs) (rec : TripRecord)
    (rows : List TripCsvRow) (_hmem : rec ∈ (log_trip inp).tripRows) :
    exportTripTotals (rows ++ [trip_csv_row rec]) =
      ((exportTripTotals rows).1 + rec.miles,
       (exportTripTotals rows).2 + rec.pay) := by
  rw [exportTripTotals, List.foldl_append]
  simp [exportTripTotals, tripStep, trip_csv_row, parseField]

/-- C8 witness: the record written by the concrete successful run
`log_trip c8_input`, appended to an empty `trips.csv`. -/
theorem trip_roundtrip_contribution_witness :
    exportTripTotals ([] ++ [trip_csv_row c8_record]) =
      ((exportTripTotals []).1 + c8_record.miles,
       (exportTripTotals []).2 + c8_record.pay) :=
  trip_roundtrip_contribution c8_input c8_record []
    (List.mem_singleton_self c8_record)

/-! ## C9 — export robustness on absent and empty inputs -/

/-- Zero renders as `0.00`. -/
theorem fmt2str_zero : fmt2str 0 = "0.00" := by
  have h : roundHalfEven 0 = 0 := by norm_num [roundHalfEven]
  simp only [fmt2str, mul_zero, h]
  decide

/-- C9: `export_data` is total on its inputs; an absent `trips.csv` or
`expenses.csv` contributes 0 to the totals (the all-absent export renders
the three zero metrics); an empty-string cell parses as 0 instead of
being skipped as non-numeric (a trailing all-blank row changes neither
total); and the written summary is always exactly the header row plus
three metric rows, replacing whatever summary was there before. -/
theorem export_data_robustness (trips : Option (List TripCsvRow))
    (expenses : Option (List CsvField)) (prev : Option (List (List String)))
    (rows : List TripCsvRow) (amounts : List CsvField) :
    (export_data trips expenses).length = 4 ∧
    (export_data trips expenses).head? = some ["Metric", "Amount"] ∧
    export_data none none =
      [["Metric", "Amount"], ["Total Miles", "0.00"], ["Total Pay", "$0.00"],
       ["Total Expenses", "$0.00"]] ∧
    parseField CsvField.blank = some 0 ∧
    exportTripTotals (rows ++ [⟨CsvField.blank, CsvField.blank⟩]) =
      exportTripTotals rows ∧
    exportExpenseTotal (amounts ++ [CsvField.blank]) = exportExpenseTotal amounts ∧
    overwrite_summary prev (export_data trips expenses) = export_data trips expenses := by
  refine ⟨rfl, rfl, ?_, rfl, ?_, ?_, rfl⟩
  · simp [export_data, exportTripTotals, exportExpenseTotal, fmt2str_zero]
  · simp [exportTripTotals, List.foldl_append, tripStep, parseField]
  · simp [exportExpenseTotal, List.foldl_append, expenseStep, parseField]

/-! ## C4 — malformed input handling in the logger -/

/-- Rounding zero to two decimals gives zero. -/
theorem round2_zero : round2 0 = 0 := by
  have h : roundHalfEven 0 = 0 := by norm_num [roundHalfEven]
  simp [round2, h]

/-- C4 (amended): an unparseable start or end time, unparseable miles, or
(for an owner-operator) unparseable revenue aborts `log_trip` with an
error and nothing written; an unparseable amount or date aborts
`log_expense` with an error and nothing written; but an unparseable
expense amount inside `log_trip` only drops the expense — no expense row
is written, while the trip row itself is still appended with its
ExpenseAmount field recorded as 0. -/
theorem log_malformed_input_aborts (it : TripInputs) (ie : ExpenseInputs) :
    ((it.start_time = none ∨ it.end_time = none) → log_trip it = ⟨[], [], true⟩) ∧
    (it.miles = none → log_trip it = ⟨[], [], true⟩) ∧
    (it.driver_type = "owner" → it.revenue = none → log_trip it = ⟨[], [], true⟩) ∧
    (it.add_expense = "y" → it.expense_amount = none →
      (log_trip it).expenseRows = [] ∧
      ((log_trip it).tripRows = [] ∨
        ∃ r, (log_trip it).tripRows = [r] ∧ r.expenseAmount = 0)) ∧
    ((ie.amount = none ∨ ie.date = none) → log_expense ie = ⟨[], [], true⟩) := by
  obtain ⟨tid, dn, dt, st, et, mi, rv, ae, ea, ed⟩ := it
  obtain ⟨en, ea2, edesc, edate⟩ := ie
  refine ⟨?_, ?_, ?_, ?_, ?_⟩
  · rintro (h | h)
    · subst h; cases et <;> simp [log_trip]
    · subst h; cases st <;> simp [log_trip]
  · intro h
    subst h
    cases st <;> cases et <;> simp [log_trip]
  · intro h1 h2
    subst h1
    subst h2
    cases st <;> cases et <;> cases mi <;> simp [log_trip]
  · intro h1 h2
    subst h1
    subst h2
    cases st with
    | none => simp [log_trip]
    | some s =>
      cases et with
      | none => simp [log_trip]
      | some e =>
        cases mi with
        | none => simp [log_trip]
        | some m =>
          cases hrv : (if dt = "owner" then rv else some 0) with
          | none => simp [log_trip, hrv]
          | some v =>
            simp only [log_trip, hrv]
            refine ⟨rfl, Or.inr ⟨_, rfl, ?_⟩⟩
            simp [trip_row, round2_zero]
  · rintro (h | h)
    · subst h; cases edate <;> simp [log_expense]
    · subst h; cases ea2 <;> simp [log_expense]

/-- C4 witness: a trip whose only flaw is a non-numeric miles answer is
aborted whole, and an expense whose amount does not parse is aborted
whole. -/
theorem log_malformed_input_aborts_witness :
    log_trip { trip_id := "T2", driver_name := "cal", driver_type := "company",
               start_time := some 0, end_time := some 3600, miles := none,
               revenue := some 0, add_expense := "n", expense_amount := none,
               expense_desc := "" } = ⟨[], [], true⟩ ∧
    log_expense { driver_name := "", amount := none, description := "fuel",
                  date := some 20000 } = ⟨[], [], true⟩ :=
  ⟨(log_malformed_input_aborts _ ⟨"", none, "fuel", some 20000⟩).2.1 rfl,
   (log_malformed_input_aborts ⟨"T2", "cal", "company", some 0, some 3600, none,
      some 0, "n", none, ""⟩ _).2.2.2.2 (Or.inl rfl)⟩

/-- C4 counterexample: with every field well-formed except a non-numeric
expense amount, `log_trip` still appends the trip row, so "no trip row is
appended when any field of that operation fails to parse" is false. -/
theorem log_malformed_expense_counterexample :
    c4_input.expense_amount = none ∧ c4_input.add_expense = "y" ∧
    (log_trip c4_input).tripRows ≠ [] := by
  refine ⟨rfl, rfl, ?_⟩
  simp [log_trip, c4_input]

/-! ## C3 — zero-byte update candidate in Variant A -/

/-- C3 (amended): a zero-byte candidate processed while `Road_Hawk.py`
exists behaves as claimed only when the target is itself empty (no diff,
no backup, target untouched, candidate deleted); when the target is
non-empty, `difflib.unified_diff` against the empty line list is
non-empty, so a backup is taken, the target is overwritten with empty
content, and the candidate is deleted. -/
theorem empty_update_candidate (ts : Timestamp) (name : String)
    (rest : List (String × List String)) (old : List String)
    (bk : List (String × List String)) :
    (old = [] →
      process_candidate ts ⟨(name, []) :: rest, some old, bk⟩ name =
        .ok ⟨((name, ([] : List String)) :: rest).filter (fun e => e.1 != name),
             some old, bk⟩) ∧
    (old ≠ [] →
      process_candidate ts ⟨(name, []) :: rest, some old, bk⟩ name =
        .ok ⟨((name, ([] : List String)) :: rest).filter (fun e => e.1 != name),
             some [], bk ++ [(backupName ts, old)]⟩) := by
  constructor
  · intro h
    subst h
    simp [process_candidate, List.lookup, update_code, detect_changes]
  · intro h
    simp [process_candidate, List.lookup, update_code, detect_changes,
      backup_current_version, h]

/-- C3 witness: the no-diff branch at a concrete state — empty target,
empty candidate: the candidate is removed, nothing else changes. -/
theorem empty_update_candidate_witness :
    process_candidate ts1 ⟨[("w.update.py", [])], some [], []⟩ "w.update.py" =
      .ok ⟨[("w.update.py", ([] : List String))].filter (fun e => e.1 != "w.update.py"),
           some [], []⟩ :=
  (empty_update_candidate ts1 "w.update.py" [] [] []).1 rfl

/-- C3 counterexample: with target contents `["x"]` and a zero-byte
candidate, processing overwrites the target with empty content and does
create a backup — the claimed "no diff detected, target unchanged, no
backup" is false for a non-empty target. -/
theorem empty_update_candidate_counterexample :
    process_candidate ts0 c3_state "v.update.py" =
      .ok ⟨[], some [], [(backupName ts0, ["x"])]⟩ ∧
    c3_state.target = some ["x"] ∧ c3_state.backups = [] ∧
    some ([] : List String) ≠ some ["x"] := by
  exact ⟨rfl, rfl, rfl, by simp⟩

/-! ## C6 — missing target file in Variant A -/

/-- C6: with `Road_Hawk.py` absent, `detect_changes` reports a fresh
install, but `update_code` then calls `backup_current_version`, whose
`shutil.copy(MAIN_FILE, ...)` raises `FileNotFoundError`; processing the
candidate therefore crashes instead of installing the candidate content,
whatever the scan instant. -/
theorem variant_a_missing_target_crash (ts : Timestamp) :
    process_candidate ts c6_state "v2.update.py" = .error () ∧
    detect_changes c6_state.target ["print(1)"] = true :=
  ⟨rfl, rfl⟩

/-! ## C10 — unrecognized suffixes are left alone by Variant B -/

/-- Two strings cannot be equal when exactly one of them ends in `pat`. -/
theorem ne_of_endswith (a b pat : String) (ha : endswith a pat = false)
    (hb : endswith b pat = true) : a ≠ b := by
  intro he
  rw [he, hb] at ha
  exact Bool.noConfusion ha

/-- One Variant B step either leaves the inbox alone or filters out the
name of the file it handled — and it filters only for a file whose name
ends in `.py`, `.txt` or `.docx`. -/
theorem scan_step_inbox (ts : Timestamp) (g : String × String) (st : StateB) :
    (scan_step ts st g).inbox = st.inbox ∨
    ((scan_step ts st g).inbox = st.inbox.filter (fun e => e.1 != g.1) ∧
      (endswith g.1 ".py" = true ∨ endswith g.1 ".txt" = true ∨
        endswith g.1 ".docx" = true)) := by
  rcases st with ⟨inb, tgt, arc⟩
  by_cases h1 : endswith g.1 ".py"
  · cases tgt <;> simp [scan_step, apply_python_update, h1]
  · by_cases h2 : endswith g.1 ".txt"
    · simp [scan_step, archive_file, h1, h2]
    · by_cases h3 : endswith g.1 ".docx"
      · simp [scan_step, archive_file, h1, h2, h3]
      · left
        simp [scan_step, h1, h2, h3]

/-- Through any run of Variant B steps, a file whose name matches none of
the three recognized suffixes stays in the inbox. -/
theorem mem_scan_foldl (ts : Timestamp) (f : String × String)
    (hpy : endswith f.1 ".py" = false) (htxt : endswith f.1 ".txt" = false)
    (hdocx : endswith f.1 ".docx" = false) :
    ∀ (l : List (String × String)) (st : StateB), f ∈ st.inbox →
      f ∈ (l.foldl (scan_step ts) st).inbox := by
  intro l
  induction l with
  | nil => exact fun st h => h
  | cons g gs ih =>
    intro st h
    rw [List.foldl_cons]
    apply ih
    rcases scan_step_inbox ts g st with heq | ⟨heq, hsuf⟩
    · rw [heq]; exact h
    · rw [heq]
      refine List.mem_filter.mpr ⟨h, ?_⟩
      have hne : f.1 ≠ g.1 := by
        rcases hsuf with h1 | h1 | h1
        · exact ne_of_endswith f.1 g.1 ".py" hpy h1
        · exact ne_of_endswith f.1 g.1 ".txt" htxt h1
        · exact ne_of_endswith f.1 g.1 ".docx" hdocx h1
      simpa using hne

/-- C10: in a Variant B scan cycle, a file in the watched folder whose
name ends in none of `.py`, `.txt`, `.docx` is handled by the fall-through
branch, so the step on it changes nothing at all (it is not moved, deleted
or modified, and target and archive are untouched on its account), and it
is still sitting in the inbox after the whole cycle, to be re-examined on
the next cycle. -/
theorem unrecognized_suffix_untouched (ts : Timestamp) (s : StateB)
    (f : String × String) (hin : f ∈ s.inbox)
    (hpy : endswith f.1 ".py" = false) (htxt : endswith f.1 ".txt" = false)
    (hdocx : endswith f.1 ".docx" = false) :
    (∀ st : StateB, scan_step ts st f = st) ∧
    f ∈ (scan_cycle ts s).inbox := by
  constructor
  · intro st
    simp [scan_step, hpy, htxt, hdocx]
  · exact mem_scan_foldl ts f hpy htxt hdocx s.inbox s hin

/-- C10 witness: a `notes.csv` drop sits untouched through a scan cycle
that also contains it as its only file. -/
theorem unrecognized_suffix_untouched_witness :
    (∀ st : StateB, scan_step ts0 st ("notes.csv", "1,2") = st) ∧
    ("notes.csv", "1,2") ∈ (scan_cycle ts0 ⟨[("notes.csv", "1,2")], none, []⟩).inbox :=
  unrecognized_suffix_untouched ts0 ⟨[("notes.csv", "1,2")], none, []⟩
    ("notes.csv", "1,2") (by decide) (by decide) (by decide) (by decide)

/-! ## C5 — backup before overwrite, timestamped to the second -/

/-- Reading a digit character back gives the digit. -/
theorem dv_dchar : ∀ d : Nat, d < 10 → dv (dchar d) = d := by decide

/-- Reading the last decimal digit back. -/
theorem dv_dchar_mod (n : Nat) : dv (dchar (n % 10)) = n % 10 :=
  dv_dchar (n % 10) (Nat.mod_lt n (by norm_num))

/-- The strftime rendering decodes back to the timestamp it came from. -/
theorem decode_fmtTimestamp (t : Timestamp) (h : t.valid) :
    decode_ts (fmtTimestamp t) = some t := by
  obtain ⟨y, mo, d, hh, mi, s⟩ := t
  simp only [Timestamp.valid] at h
  obtain ⟨h1, h2, h3, h4, h5, h6⟩ := h
  simp only [fmtTimestamp, p4, p2, List.cons_append, List.nil_append]
  simp only [decode_ts, dv_dchar_mod, Option.some.injEq, Timestamp.mk.injEq]
  refine ⟨?_, ?_, ?_, ?_, ?_, ?_⟩ <;> omega

/-- The strftime text identifies the instant down to the second: two valid
timestamps with the same rendering are equal. -/
theorem fmtTimestamp_inj (t1 t2 : Timestamp) (v1 : t1.valid) (v2 : t2.valid)
    (he : fmtTimestamp t1 = fmtTimestamp t2) : t1 = t2 := by
  have hd := decode_fmtTimestamp t1 v1
  rw [he, decode_fmtTimestamp t2 v2] at hd
  exact ((Option.some.injEq t2 t1).mp hd).symm

/-- C5 (amended): before the target script is overwritten, both variants
first copy the existing target to a backup whose file name embeds the
strftime second-resolution timestamp (the rendering is injective on valid
instants, so names differ whenever any field down to the second differs);
with no target file, Variant B skips the backup silently and still
installs the update, while Variant A's change detection does treat the
absence as a fresh install but its unconditional backup step then raises
on the missing file, so no update is installed. -/
theorem backup_before_overwrite (ts : Timestamp) (sB : StateB)
    (f : String × String) (tb : String) (sA : StateA)
    (old new_code : List String) :
    (sB.target = some tb →
      apply_python_update ts sB f =
        ⟨sB.inbox.filter (fun e => e.1 != f.1), some f.2,
         sB.archive ++ [(backupNameB ts, tb)]⟩) ∧
    (sB.target = none →
      apply_python_update ts sB f =
        ⟨sB.inbox.filter (fun e => e.1 != f.1), some f.2, sB.archive⟩) ∧
    (sA.target = some old → old ≠ new_code →
      update_code ts sA new_code =
        .ok ⟨sA.folder, some new_code, sA.backups ++ [(backupName ts, old)]⟩) ∧
    (sA.target = none → update_code ts sA new_code = .error ()) ∧
    backupName ts = "Road_Hawk_" ++ fmtTimestamp ts ++ ".bak" ∧
    backupNameB ts = "Road_Hawk.py_" ++ fmtTimestamp ts ++ ".bak" ∧
    (∀ t1 t2 : Timestamp, t1.valid → t2.valid →
      fmtTimestamp t1 = fmtTimestamp t2 → t1 = t2) := by
  obtain ⟨inb, tgtB, arc⟩ := sB
  obtain ⟨fold, tgtA, bks⟩ := sA
  refine ⟨?_, ?_, ?_, ?_, rfl, rfl, fmtTimestamp_inj⟩
  · intro h
    simp only at h
    subst h
    simp [apply_python_update]
  · intro h
    simp only at h
    subst h
    simp [apply_python_update]
  · intro h1 h2
    simp only at h1
    subst h1
    simp [update_code, detect_changes, backup_current_version, h2]
  · intro h
    simp only at h
    subst h
    simp [update_code, detect_changes, backup_current_version]

/-- C5 witness: Variant B installing `u.py` over an existing one-line
target (backup taken into the archive first), and Variant A installing a
changed line list over an existing target (backup taken first). -/
theorem backup_before_overwrite_witness :
    apply_python_update ts0 ⟨[("u.py", "new")], some "oldsrc", []⟩ ("u.py", "new") =
      ⟨[("u.py", "new")].filter (fun e => e.1 != "u.py"), some "new",
       [] ++ [(backupNameB ts0, "oldsrc")]⟩ ∧
    update_code ts0 ⟨[], some ["a"], []⟩ ["b"] =
      .ok ⟨[], some ["b"], [] ++ [(backupName ts0, ["a"])]⟩ :=
  ⟨(backup_before_overwrite ts0 ⟨[("u.py", "new")], some "oldsrc", []⟩
      ("u.py", "new") "oldsrc" ⟨[], some ["a"], []⟩ ["a"] ["b"]).1 rfl,
   (backup_before_overwrite ts0 ⟨[("u.py", "new")], some "oldsrc", []⟩
      ("u.py", "new") "oldsrc" ⟨[], some ["a"], []⟩ ["a"] ["b"]).2.2.1 rfl
      (by simp)⟩

/-- C5 counterexample: Variant A with the target absent does not install
the candidate as a fresh copy — `update_code` raises out of the backup
step (change detection had fired), so the "treats absence as a fresh
install" clause is false for Variant A. -/
theorem variant_a_fresh_install_counterexample :
    update_code ts1 ⟨[], none, []⟩ ["new line"] = .error () ∧
    detect_changes (none : Option (List String)) ["new line"] = true :=
  ⟨rfl, rfl⟩
